import Mathlib

/-!
Verification of the mediaplay repository's core behaviors: the photo-editor
rasterization pipeline (`src/src/features/PhotoEdit/PhotoEditor.tsx`), the
test-mode task tracker (`TestModePanel`), and the scheduling / voice-command
logic of the two `App` variants.

Conventions of the shallow embedding:
* Timestamps are epoch milliseconds, modeled as `Nat` (JavaScript `Date.now()`
  always returns a non-negative integer).
* The 2D drawing context is modeled as a trace of the operations the code
  performs on it (`CtxOp`); a canvas is its dimensions together with that
  trace.  The browser's PNG encoder is a deterministic function of the canvas
  contents, so a blob is modeled as the mime type plus the canvas it encodes.
* React state updates become explicit state-passing; a `useEffect` whose
  dependency list is `[events, taskState]` re-runs after every state change,
  which the embedding reflects by applying the effect body after every
  operation.
-/

namespace MediaPlay

/-! ### Photo editor (src/src/features/PhotoEdit/PhotoEditor.tsx) -/

/-- `type CropArea = { x: number; y: number; width: number; height: number }`,
in source-image pixel space (react-easy-crop reports integer pixel values). -/
structure CropArea where
  x : Int
  y : Int
  width : Int
  height : Int
deriving DecidableEq, Repr

/-- One entry of the `FILTERS` table. -/
structure FilterDef where
  key : String
  label : String
  css : String
deriving DecidableEq, Repr

/-- The fixed `FILTERS` array of the photo editor. -/
def FILTERS : List FilterDef :=
  [ { key := "none", label := "Sin filtro", css := "none" },
    { key := "grayscale", label := "Blanco y negro", css := "grayscale(1)" },
    { key := "sepia", label := "Sepia", css := "sepia(0.8)" },
    { key := "contrast", label := "Contraste", css := "contrast(1.4)" },
    { key := "bright", label := "Brillo", css := "brightness(1.2)" } ]

/-- `FILTERS.find(f => f.key === filter)?.css ?? 'none'`. -/
def filterCss (filter : String) : String :=
  ((FILTERS.find? (fun f => f.key == filter)).map FilterDef.css).getD "none"

/-- A decoded source image: its pixel dimensions and the data URL it was
decoded from (`createImage` resolves a data URL to an image element; the
decoded pixel content is a function of the URL). -/
structure SourceImage where
  width : Int
  height : Int
  src : String
deriving DecidableEq, Repr

/-- Operations `getCroppedImg` performs on the 2D context, recorded in call
order.  `rotate` records the rotation in degrees; the code passes
`rotationDeg * Math.PI / 180` radians, a bijective renaming of the argument. -/
inductive CtxOp where
  | setFilter (css : String)
  | translate (dx dy : ℚ)
  | rotate (deg : ℚ)
  | drawImage (image : SourceImage) (sx sy sw sh dx dy dw dh : Int)
deriving DecidableEq, Repr

/-- A canvas: its `width`/`height` attributes plus the trace of context
operations that produced its pixel content. -/
structure Canvas where
  width : Int
  height : Int
  ops : List CtxOp
deriving DecidableEq, Repr

/-- Result of `canvas.toBlob(..., 'image/png')`: the browser encodes the
canvas contents deterministically with the given mime type. -/
structure Blob where
  mime : String
  content : Canvas
deriving DecidableEq, Repr

/-- `getCroppedImg(imageSrcLocal, cropPixels, rotationDeg, cssFilter)`.
`ctxAvailable` is whether `canvas.getContext('2d')` succeeds; when it does
not, the code throws `Error('Canvas context not available')`.  (The unused
`safeArea` local of the source is omitted: it is dead code.)  The canvas is
allocated at the crop rectangle's dimensions, the filter and the
center-pivoted rotation are applied to the context, and the crop sub-region
of the source image is drawn into `[0, 0, width, height]`. -/
def getCroppedImg (ctxAvailable : Bool) (image : SourceImage)
    (cropPixels : CropArea) (rotationDeg : ℚ) (cssFilter : String) :
    Except String Blob :=
  if ctxAvailable = false then Except.error "Canvas context not available"
  else
    let w : Int := cropPixels.width
    let h : Int := cropPixels.height
    Except.ok
      { mime := "image/png",
        content :=
          { width := w,
            height := h,
            ops :=
              [ CtxOp.setFilter cssFilter,
                CtxOp.translate ((w : ℚ) / 2) ((h : ℚ) / 2),
                CtxOp.rotate rotationDeg,
                CtxOp.translate (-((w : ℚ) / 2)) (-((h : ℚ) / 2)),
                CtxOp.drawImage image cropPixels.x cropPixels.y
                  cropPixels.width cropPixels.height 0 0
                  cropPixels.width cropPixels.height ] } }

/-- The `PhotoEditor` component state: `imageSrc`, `crop`, `zoom`,
`rotation`, `croppedAreaPixels`, `filter`, `previewUrl`. -/
structure EditorState where
  imageSrc : Option String
  crop : ℚ × ℚ
  zoom : ℚ
  rotation : ℚ
  croppedAreaPixels : Option CropArea
  filter : String
  previewUrl : Option String
deriving DecidableEq, Repr

/-- The initial values of the `useState` hooks of `PhotoEditor`. -/
def initialEditorState : EditorState :=
  { imageSrc := none, crop := (0, 0), zoom := 1, rotation := 0,
    croppedAreaPixels := none, filter := "none", previewUrl := none }

/-- The `reader.onload` handler of `onSelectFile`: stores the freshly read
data URL and resets crop offset, zoom, rotation and filter.  It does not
touch `croppedAreaPixels` or `previewUrl`. -/
def onSelectFileLoaded (st : EditorState) (dataUrl : String) : EditorState :=
  { st with imageSrc := some dataUrl, crop := (0, 0), zoom := 1,
            rotation := 0, filter := "none" }

/-! ### Test-mode task tracker (src/unnamed/part_003, `TestModePanel`) -/

/-- `type LogEvent = { type: string; t: number; meta?: ... }`.  The open-ended
`meta` attachment is modeled as an optional association list; no code under
verification ever reads it. -/
structure LogEvent where
  type : String
  t : Nat
  meta : Option (List (String × String))
deriving DecidableEq, Repr

/-- `type TaskKey = 'photo_edit' | 'sound' | 'voice' | 'three'`. -/
inductive TaskKey where
  | photo_edit
  | sound
  | voice
  | three
deriving DecidableEq, Repr

/-- One entry of the `TASKS` table. -/
structure TaskConfig where
  key : TaskKey
  label : String
  successEvents : List String
deriving DecidableEq, Repr

/-- The fixed `TASKS` array of the test-mode panel. -/
def TASKS : List TaskConfig :=
  [ { key := TaskKey.photo_edit, label := "Editar foto (aplicar recorte)",
      successEvents := ["photo_preview_ready", "photo_exported"] },
    { key := TaskKey.sound, label := "Reproducir sonido",
      successEvents := ["sound_played"] },
    { key := TaskKey.voice, label := "Comando correcto (programar publicación)",
      successEvents := ["post_scheduled", "voice_match_true"] },
    { key := TaskKey.three, label := "Cargar intro 3D",
      successEvents := ["three_visible"] } ]

/-- The `TASKS` entry for a given key (each key occurs exactly once in
`TASKS`, so the lookup is total; the default is never reached). -/
def taskConfig (k : TaskKey) : TaskConfig :=
  ((TASKS.find? (fun task => task.key == k))).getD
    { key := k, label := "", successEvents := [] }

/-- `type TaskState = { running: boolean; startT: number | null;
endT: number | null }`. -/
structure TaskState where
  running : Bool
  startT : Option Nat
  endT : Option Nat
deriving DecidableEq, Repr

/-- The initial per-task state `{ running: false, startT: null, endT: null }`. -/
def initialTaskState : TaskState :=
  { running := false, startT := none, endT := none }

/-- The body of `startTask`: `{ running: true, startT: t, endT: null }`
with `t = nowFn()`. -/
def startTask (t : Nat) : TaskState :=
  { running := true, startT := some t, endT := none }

/-- The body of `resetTask`: `{ running: false, startT: null, endT: null }`. -/
def resetTask : TaskState :=
  { running := false, startT := none, endT := none }

/-- The per-task body of the auto-completion `useEffect`: a task whose state
is running with a start time and no end time, and whose `successEvents`
contain the type of the last log event, is completed with
`endT = last.t`; any other task is left unchanged. -/
def completeOnLast (last : LogEvent) (k : TaskKey) (st : TaskState) : TaskState :=
  if st.running && st.startT.isSome && st.endT.isNone
      && (taskConfig k).successEvents.contains last.type
  then { running := false, startT := st.startT, endT := some last.t }
  else st

/-- One run of the auto-completion `useEffect`: nothing happens while the
event log is empty; otherwise every task is checked against the last event.
(The `forEach` over `TASKS` updates each task key independently, so it is
expressed pointwise.) -/
def effectPass (events : List LogEvent) (ts : TaskKey → TaskState) :
    TaskKey → TaskState :=
  match events.getLast? with
  | none => ts
  | some last => fun k => completeOnLast last k (ts k)

/-- The state visible to the panel: the global event log and the per-task
states. -/
structure PanelState where
  events : List LogEvent
  tasks : TaskKey → TaskState

/-- The state at mount: empty log, all tasks pending. -/
def initialPanel : PanelState :=
  { events := [], tasks := fun _ => initialTaskState }

/-- The externally triggered operations: pressing a task's start button
(which the markup disables while the task is running), pressing its reset
button, and the app appending a log event.  `clickStart` carries the value
`nowFn()` returns at the click. -/
inductive PanelOp where
  | clickStart (k : TaskKey) (now : Nat)
  | clickReset (k : TaskKey)
  | appendEvent (e : LogEvent)
deriving DecidableEq, Repr

/-- One operation followed by the auto-completion effect.  The effect's
dependency list is `[events, taskState]`, so it re-runs after every state
change (one pass reaches a fixpoint: completing a task sets `endT`, after
which `completeOnLast` leaves it unchanged). -/
def applyOp (s : PanelState) : PanelOp → PanelState
  | PanelOp.clickStart k now =>
      if (s.tasks k).running then s
      else
        let ts := fun k2 => if k2 = k then startTask now else s.tasks k2
        { events := s.events, tasks := effectPass s.events ts }
  | PanelOp.clickReset k =>
      let ts := fun k2 => if k2 = k then resetTask else s.tasks k2
      { events := s.events, tasks := effectPass s.events ts }
  | PanelOp.appendEvent e =>
      let evs := s.events ++ [e]
      { events := evs, tasks := effectPass evs s.tasks }

/-- A whole session: the operations applied in order from the mount state. -/
def run (s : PanelState) (ops : List PanelOp) : PanelState :=
  ops.foldl applyOp s

/-- The state of task `k` after a session `ops`. -/
def taskAfter (ops : List PanelOp) (k : TaskKey) : TaskState :=
  (run initialPanel ops).tasks k

/-- The spec's `Pending` state: not running, no timestamps. -/
def isPending (st : TaskState) : Prop :=
  st.running = false ∧ st.startT = none ∧ st.endT = none

/-- The spec's `Running` state: running, start time recorded, no end time. -/
def isRunningSt (st : TaskState) : Prop :=
  st.running = true ∧ st.startT ≠ none ∧ st.endT = none

/-- The spec's `Completed` state: not running, both timestamps recorded. -/
def isCompleted (st : TaskState) : Prop :=
  st.running = false ∧ st.startT ≠ none ∧ st.endT ≠ none

/-- The three-state invariant of a single task. -/
def TInv (st : TaskState) : Prop :=
  isPending st ∨ isRunningSt st ∨ isCompleted st

theorem tinv_completeOnLast (last : LogEvent) (k : TaskKey) (st : TaskState)
    (h : TInv st) : TInv (completeOnLast last k st) := by
  unfold completeOnLast
  by_cases hc : (st.running && st.startT.isSome && st.endT.isNone
      && (taskConfig k).successEvents.contains last.type) = true
  · rw [if_pos hc]
    simp only [Bool.and_eq_true] at hc
    exact Or.inr (Or.inr ⟨rfl, Option.isSome_iff_ne_none.mp hc.1.1.2, by simp⟩)
  · rw [if_neg hc]
    exact h

theorem tinv_effectPass (events : List LogEvent) (ts : TaskKey → TaskState)
    (k : TaskKey) (h : TInv (ts k)) : TInv (effectPass events ts k) := by
  unfold effectPass
  cases hev : events.getLast? with
  | none => exact h
  | some last => exact tinv_completeOnLast last k (ts k) h

theorem tinv_applyOp (s : PanelState) (op : PanelOp)
    (h : ∀ k, TInv (s.tasks k)) : ∀ k, TInv ((applyOp s op).tasks k) := by
  cases op with
  | clickStart k0 now =>
      by_cases hr : (s.tasks k0).running
      · simpa [applyOp, hr] using h
      · intro k
        simp only [applyOp, hr, if_neg, Bool.false_eq_true, ite_false]
        apply tinv_effectPass
        by_cases hk : k = k0
        · simp only [hk, if_pos rfl]
          exact Or.inr (Or.inl ⟨rfl, by simp [startTask], rfl⟩)
        · simp only [if_neg hk]
          exact h k
  | clickReset k0 =>
      intro k
      simp only [applyOp]
      apply tinv_effectPass
      by_cases hk : k = k0
      · simp only [hk, if_pos rfl]
        exact Or.inl ⟨rfl, rfl, rfl⟩
      · simp only [if_neg hk]
        exact h k
  | appendEvent e =>
      intro k
      simp only [applyOp]
      exact tinv_effectPass _ _ _ (h k)

theorem tinv_run (ops : List PanelOp) :
    ∀ s : PanelState, (∀ k, TInv (s.tasks k)) →
      ∀ k, TInv ((run s ops).tasks k) := by
  induction ops with
  | nil => intro s h k; exact h k
  | cons op ops ih =>
      intro s h k
      exact ih (applyOp s op) (tinv_applyOp s op h) k

theorem tinv_taskAfter (ops : List PanelOp) (k : TaskKey) :
    TInv (taskAfter ops k) :=
  tinv_run ops initialPanel (fun _ => Or.inl ⟨rfl, rfl, rfl⟩) k

theorem run_append_op (ops : List PanelOp) (op : PanelOp) :
    run initialPanel (ops ++ [op]) = applyOp (run initialPanel ops) op := by
  simp [run, List.foldl_append]

/-- C2: after any sequence of start, reset and log-event-append operations,
each task is in exactly one of the states Pending, Running, Completed; the
end time is set if and only if the task is Completed, a Running task never
carries an end time, and a Completed task carries both timestamps. -/
theorem taskTracker_state_trichotomy (ops : List PanelOp) (k : TaskKey) :
    (isPending (taskAfter ops k) ∨ isRunningSt (taskAfter ops k)
      ∨ isCompleted (taskAfter ops k))
    ∧ ((taskAfter ops k).endT ≠ none ↔ isCompleted (taskAfter ops k))
    ∧ ¬(isPending (taskAfter ops k) ∧ isRunningSt (taskAfter ops k))
    ∧ ¬(isPending (taskAfter ops k) ∧ isCompleted (taskAfter ops k))
    ∧ ¬(isRunningSt (taskAfter ops k) ∧ isCompleted (taskAfter ops k))
    ∧ (isRunningSt (taskAfter ops k) → (taskAfter ops k).endT = none)
    ∧ (isCompleted (taskAfter ops k) →
        (taskAfter ops k).startT ≠ none ∧ (taskAfter ops k).endT ≠ none) := by
  have hinv := tinv_taskAfter ops k
  refine ⟨hinv, ?_, ?_, ?_, ?_, fun h => h.2.2, fun h => ⟨h.2.1, h.2.2⟩⟩
  · constructor
    · intro hne
      rcases hinv with hp | hr | hc
      · exact absurd hp.2.2 hne
      · exact absurd hr.2.2 hne
      · exact hc
    · intro hc
      exact hc.2.2
  · rintro ⟨hp, hr⟩
    exact absurd (hp.1.symm.trans hr.1) (by decide)
  · rintro ⟨hp, hc⟩
    exact hc.2.2 hp.2.2
  · rintro ⟨hr, hc⟩
    exact hc.2.2 hr.2.2

/-- Witness for `taskTracker_state_trichotomy`: the session that starts the
voice task at time 10. -/
theorem taskTracker_state_trichotomy_witness :
    (isPending (taskAfter [PanelOp.clickStart TaskKey.voice 10] TaskKey.voice)
      ∨ isRunningSt (taskAfter [PanelOp.clickStart TaskKey.voice 10] TaskKey.voice)
      ∨ isCompleted (taskAfter [PanelOp.clickStart TaskKey.voice 10] TaskKey.voice))
    ∧ ((taskAfter [PanelOp.clickStart TaskKey.voice 10] TaskKey.voice).endT ≠ none
        ↔ isCompleted (taskAfter [PanelOp.clickStart TaskKey.voice 10] TaskKey.voice))
    ∧ ¬(isPending (taskAfter [PanelOp.clickStart TaskKey.voice 10] TaskKey.voice)
        ∧ isRunningSt (taskAfter [PanelOp.clickStart TaskKey.voice 10] TaskKey.voice))
    ∧ ¬(isPending (taskAfter [PanelOp.clickStart TaskKey.voice 10] TaskKey.voice)
        ∧ isCompleted (taskAfter [PanelOp.clickStart TaskKey.voice 10] TaskKey.voice))
    ∧ ¬(isRunningSt (taskAfter [PanelOp.clickStart TaskKey.voice 10] TaskKey.voice)
        ∧ isCompleted (taskAfter [PanelOp.clickStart TaskKey.voice 10] TaskKey.voice))
    ∧ (isRunningSt (taskAfter [PanelOp.clickStart TaskKey.voice 10] TaskKey.voice) →
        (taskAfter [PanelOp.clickStart TaskKey.voice 10] TaskKey.voice).endT = none)
    ∧ (isCompleted (taskAfter [PanelOp.clickStart TaskKey.voice 10] TaskKey.voice) →
        (taskAfter [PanelOp.clickStart TaskKey.voice 10] TaskKey.voice).startT ≠ none
        ∧ (taskAfter [PanelOp.clickStart TaskKey.voice 10] TaskKey.voice).endT ≠ none) :=
  taskTracker_state_trichotomy [PanelOp.clickStart TaskKey.voice 10] TaskKey.voice

/-- C3: appending a new event `e` to the log completes exactly the tasks that
are currently running and whose success-event set contains `e.type`, setting
their end time to `e.t` and keeping their start time; every other task (in
particular every Pending and every Completed task) is unchanged. -/
theorem appendEvent_completion (ops : List PanelOp) (e : LogEvent) (k : TaskKey) :
    taskAfter (ops ++ [PanelOp.appendEvent e]) k =
      (if (taskAfter ops k).running
          && (taskConfig k).successEvents.contains e.type
       then { running := false, startT := (taskAfter ops k).startT,
              endT := some e.t }
       else taskAfter ops k) := by
  have hinv := tinv_taskAfter ops k
  have hlast : ((run initialPanel ops).events ++ [e]).getLast? = some e :=
    List.getLast?_concat _
  unfold taskAfter at *
  rw [run_append_op]
  have hstep : (applyOp (run initialPanel ops) (PanelOp.appendEvent e)).tasks k
      = completeOnLast e k ((run initialPanel ops).tasks k) := by
    simp only [applyOp, effectPass, hlast]
  rw [hstep]
  unfold completeOnLast
  rcases hinv with hp | hr | hc
  · simp [hp.1]
  · have h1 : ((run initialPanel ops).tasks k).startT.isSome = true :=
      Option.isSome_iff_ne_none.mpr hr.2.1
    simp [hr.1, h1, hr.2.2]
  · simp [hc.1]

/-- C8: pressing the start control of a task that is already running is a
no-op — the start button is disabled while `running` is true, so the whole
panel state, and in particular the task's running flag, start time and end
time, are unchanged. -/
theorem start_while_running_noop (ops : List PanelOp) (k : TaskKey) (now : Nat)
    (h : (taskAfter ops k).running = true) :
    applyOp (run initialPanel ops) (PanelOp.clickStart k now) = run initialPanel ops
    ∧ taskAfter (ops ++ [PanelOp.clickStart k now]) k = taskAfter ops k := by
  have h1 : applyOp (run initialPanel ops) (PanelOp.clickStart k now)
      = run initialPanel ops := by
    simp only [applyOp]
    exact if_pos h
  refine ⟨h1, ?_⟩
  unfold taskAfter
  rw [run_append_op, h1]

/-- Witness for `start_while_running_noop`: starting the voice task at time
10 and pressing start again at time 99. -/
theorem start_while_running_noop_witness :
    (taskAfter [PanelOp.clickStart TaskKey.voice 10] TaskKey.voice).running = true
    ∧ (applyOp (run initialPanel [PanelOp.clickStart TaskKey.voice 10])
          (PanelOp.clickStart TaskKey.voice 99)
        = run initialPanel [PanelOp.clickStart TaskKey.voice 10]
      ∧ taskAfter ([PanelOp.clickStart TaskKey.voice 10]
            ++ [PanelOp.clickStart TaskKey.voice 99]) TaskKey.voice
        = taskAfter [PanelOp.clickStart TaskKey.voice 10] TaskKey.voice) :=
  ⟨by decide, start_while_running_noop [PanelOp.clickStart TaskKey.voice 10]
      TaskKey.voice 99 (by decide)⟩

/-- C10 counterexample: a matching success event that is already the last log
entry when the task is started does complete the task.  The completion effect
re-runs on the task-state change caused by the start itself, so the voice
task started at time 100 is immediately Completed with the end time 50 of the
pre-existing event — the claimed "never completes" fails. -/
theorem start_with_matching_last_event_completes :
    taskAfter
        [PanelOp.appendEvent { type := "post_scheduled", t := 50, meta := none },
         PanelOp.clickStart TaskKey.voice 100] TaskKey.voice
      = { running := false, startT := some 100, endT := some 50 }
    ∧ (taskAfter
        [PanelOp.appendEvent { type := "post_scheduled", t := 50, meta := none },
         PanelOp.clickStart TaskKey.voice 100] TaskKey.voice).endT ≠ none := by
  constructor <;> decide

/-- C10 amended: the automatic-completion step inspects only the most
recently appended log event, and it also re-fires on the start itself:
starting a non-running task completes it immediately when the log's current
last event matches its success set (recording that old event's timestamp as
end time); otherwise the task is left Running, regardless of matching events
earlier in the log, and it then completes only when a new matching event is
appended while it is Running. -/
theorem start_checks_last_event (ops : List PanelOp) (k : TaskKey) (now : Nat)
    (h : (taskAfter ops k).running = false) :
    taskAfter (ops ++ [PanelOp.clickStart k now]) k =
      match (run initialPanel ops).events.getLast? with
      | some last =>
          if (taskConfig k).successEvents.contains last.type
          then { running := false, startT := some now, endT := some last.t }
          else { running := true, startT := some now, endT := none }
      | none => { running := true, startT := some now, endT := none } := by
  unfold taskAfter at *
  rw [run_append_op]
  have hn : ¬ ((run initialPanel ops).tasks k).running = true := by
    rw [h]; decide
  cases hev : (run initialPanel ops).events.getLast? with
  | none =>
      show (applyOp (run initialPanel ops) (PanelOp.clickStart k now)).tasks k = _
      simp only [applyOp, if_neg hn, effectPass, hev]
      simp [startTask]
  | some last =>
      show (applyOp (run initialPanel ops) (PanelOp.clickStart k now)).tasks k = _
      simp only [applyOp, if_neg hn, effectPass, hev]
      simp only [if_true]
      unfold completeOnLast startTask
      cases hc : (taskConfig k).successEvents.contains last.type <;> simp [hc]

/-- Witness for `start_checks_last_event`: the sound task started at time 100
while the last log event is a matching `sound_played` at time 40. -/
theorem start_checks_last_event_witness :
    (taskAfter [PanelOp.appendEvent { type := "sound_played", t := 40, meta := none }]
        TaskKey.sound).running = false
    ∧ taskAfter
        ([PanelOp.appendEvent { type := "sound_played", t := 40, meta := none }]
          ++ [PanelOp.clickStart TaskKey.sound 100]) TaskKey.sound
      = { running := false, startT := some 100, endT := some 40 } :=
  ⟨by decide,
    start_checks_last_event
      [PanelOp.appendEvent { type := "sound_played", t := 40, meta := none }]
      TaskKey.sound 100 (by decide)⟩

/-! ### Voice command interpreter and scheduler (src/unnamed/part_000)

`part_000` holds two versions of `App`.  The first declares `normalize`,
`isScheduleIntent` and `onVoiceSubmit` (posts are `{id, createdAt, title}`,
namespace `AppV1` below); the second declares `saveScheduledPost` over posts
`{id, createdAt, title, description, scheduledAt}` (namespace `AppV2`).
-/

/-- JavaScript `String.prototype.trim()`: surrounding whitespace removed.
The JS whitespace class is modeled by its ASCII members, the only ones the
app's inputs can contain. -/
def jsWhitespace (c : Char) : Bool :=
  c == ' ' || c == '\t' || c == '\n' || c == '\r'

/-- Whitespace-trimming used by `normalize` and `saveScheduledPost`
(`.trim()` in the source). -/
def jsTrim (s : String) : String :=
  (((s.data.dropWhile jsWhitespace).reverse.dropWhile jsWhitespace).reverse).asString

/-- Per-character effect of `toLowerCase()` followed by
`normalize('NFD').replace(/[̀-ͯ]/g, '')`: accented Latin letters
lose their accent and drop to lower case, ASCII letters drop to lower case,
everything else is unchanged.  The accented letters listed are the ones of
the app's Spanish vocabulary. -/
def foldChar (c : Char) : Char :=
  match c with
  | 'á' => 'a'
  | 'é' => 'e'
  | 'í' => 'i'
  | 'ó' => 'o'
  | 'ú' => 'u'
  | 'ü' => 'u'
  | 'ñ' => 'n'
  | 'Á' => 'a'
  | 'É' => 'e'
  | 'Í' => 'i'
  | 'Ó' => 'o'
  | 'Ú' => 'u'
  | 'Ü' => 'u'
  | 'Ñ' => 'n'
  | _ => c.toLower

/-- `normalize = s => s.toLowerCase().normalize('NFD')
.replace(/[̀-ͯ]/g, '').trim()`. -/
def normalize (s : String) : String :=
  jsTrim ((s.data.map foldChar).asString)

/-- The regex word class `\w = [A-Za-z0-9_]`. -/
def wordChar (c : Char) : Bool :=
  c.isAlphanum || c == '_'

/-- `\b` holds before position `i`: start of input or a non-word character
just before. -/
def boundaryBefore (s : List Char) (i : Nat) : Bool :=
  i == 0 || !(wordChar (s.getD (i - 1) ' '))

/-- `\b` holds after position `j`: end of input or a non-word character at
`j`. -/
def boundaryAfter (s : List Char) (j : Nat) : Bool :=
  j == s.length || !(wordChar (s.getD j ' '))

/-- The literal phrase `w` occurs at position `i` of `s` with `\b` on both
sides (each phrase of the intent patterns starts and ends with a word
character, so the boundaries sit at the phrase edges). -/
def boundedPhraseAt (s w : List Char) (i : Nat) : Bool :=
  ((s.drop i).take w.length == w) && boundaryBefore s i
    && boundaryAfter s (i + w.length)

/-- Unanchored `RegExp.test` for a pattern `\bw\b` with `w` a literal
phrase. -/
def containsBounded (s w : List Char) : Bool :=
  (List.range (s.length + 1)).any fun i => boundedPhraseAt s w i

/-- The first intent pattern,
`/\bprogram(ar|a)\b.*\b(publicacion|publicacion|post)\b/` (the duplicated
alternative is in the source): some word-bounded `programar`/`programa`
followed, after a gap free of newlines (`.` does not match `\n`), by some
word-bounded `publicacion`/`post`. -/
def pattern1 (s : List Char) : Bool :=
  (List.range (s.length + 1)).any fun i =>
    (["programar".data, "programa".data]).any fun w1 =>
      boundedPhraseAt s w1 i &&
      ((List.range (s.length + 1)).any fun j =>
        decide (i + w1.length ≤ j) &&
        !(((s.drop (i + w1.length)).take (j - (i + w1.length))).contains '\n') &&
        (["publicacion".data, "publicacion".data, "post".data]).any fun w2 =>
          boundedPhraseAt s w2 j)

/-- `isScheduleIntent`: the normalized input tested against the five fixed
patterns (`patterns.some(re => re.test(n))`); `(a )?` and `(una )?` are
expanded into their two alternatives. -/
def isScheduleIntent (s : String) : Bool :=
  let n := (normalize s).data
  pattern1 n
  || containsBounded n "programar publicacion".data
  || containsBounded n "programar post".data
  || (["schedule a post".data, "schedule post".data]).any (containsBounded n)
  || (["crear una programacion".data, "crear programacion".data]).any (containsBounded n)

/-- The default post title `'Publicación programada'` used by both app
versions. -/
def defaultTitle : String := "Publicación programada"

namespace AppV1

/-- `type ScheduledPost = { id: string; createdAt: number; title: string }`
(first `App` version). -/
structure ScheduledPost where
  id : String
  createdAt : Nat
  title : String
deriving DecidableEq, Repr

/-- `onVoiceSubmit` without its logging side effects: if the typed command
matches the schedule intent, a post `{id: String(Date.now()), createdAt:
Date.now(), title: 'Publicación programada'}` is prepended; otherwise the
list is unchanged.  The boolean is the match result `ok`.  `now` is the
value `Date.now()` returns during the call. -/
def onVoiceSubmit (now : Nat) (voiceText : String)
    (posts : List ScheduledPost) : List ScheduledPost × Bool :=
  if isScheduleIntent voiceText then
    ({ id := toString now, createdAt := now, title := defaultTitle } :: posts, true)
  else (posts, false)

end AppV1

namespace AppV2

/-- `type ScheduledPost = { id: string; createdAt: number; title: string;
description: string; scheduledAt: number }` (second `App` version). -/
structure ScheduledPost where
  id : String
  createdAt : Nat
  title : String
  description : String
  scheduledAt : Nat
deriving DecidableEq, Repr

/-- `saveScheduledPost` without its logging side effects.  `now` is the
value `Date.now()` returns during the call (the source calls it twice, for
`id` and for `createdAt`; both calls land in the same millisecond).
`scheduledAtMs` is `new Date(scheduledAtLocal).getTime()`, the chosen
wall-clock time converted to epoch milliseconds.  The title falls back to
the placeholder when its trimmed value is empty (`trim() || '...'`), the
description is stored trimmed, and the new post is prepended. -/
def saveScheduledPost (now : Nat) (manualTitle descr : String)
    (scheduledAtMs : Nat) (posts : List ScheduledPost) : List ScheduledPost :=
  let id := toString now
  let title := if jsTrim manualTitle = "" then defaultTitle else jsTrim manualTitle
  let desc := jsTrim descr
  { id := id, createdAt := now, title := title, description := desc,
    scheduledAt := scheduledAtMs } :: posts

end AppV2

/-! Decimal representation: `String(Date.now())` is `Nat.repr` of the
timestamp.  The following shows `Nat.repr` is injective, which settles when
two creation-time-derived ids can collide. -/

/-- The decimal digit characters of `n`, most significant first. -/
def digitChars (n : Nat) : List Char :=
  if _h : n < 10 then [Nat.digitChar n]
  else digitChars (n / 10) ++ [Nat.digitChar (n % 10)]
decreasing_by exact Nat.div_lt_self (by omega) (by omega)

theorem toDigitsCore_eq : ∀ (fuel n : Nat) (ds : List Char),
    0 < fuel → n < 10 ^ fuel →
    Nat.toDigitsCore 10 fuel n ds = digitChars n ++ ds := by
  intro fuel
  induction fuel with
  | zero => intro n ds h; omega
  | succ f ih =>
      intro n ds _ hlt
      rw [Nat.toDigitsCore]
      by_cases hz : n / 10 = 0
      · rw [if_pos hz]
        have hn : n < 10 := by omega
        rw [digitChars, dif_pos hn, Nat.mod_eq_of_lt hn]
        rfl
      · rw [if_neg hz]
        have hf : 0 < f := by
          by_contra hc
          have hf0 : f = 0 := by omega
          subst hf0
          simp at hlt
          omega
        have hlt2 : n / 10 < 10 ^ f := by
          rw [pow_succ, mul_comm] at hlt
          exact Nat.div_lt_of_lt_mul hlt
        rw [ih (n / 10) _ hf hlt2]
        conv_rhs => rw [digitChars]
        rw [dif_neg (by omega : ¬ n < 10)]
        simp

/-- Reading a digit list back as a number. -/
def decodeDigits (l : List Char) : Nat :=
  l.foldl (fun acc c => acc * 10 + (c.toNat - 48)) 0

theorem decode_append (l : List Char) (c : Char) :
    decodeDigits (l ++ [c]) = decodeDigits l * 10 + (c.toNat - 48) := by
  simp [decodeDigits, List.foldl_append]

theorem digitChar_decode (d : Nat) (hd : d < 10) :
    (Nat.digitChar d).toNat - 48 = d := by
  interval_cases d <;> rfl

theorem decode_digitChars (n : Nat) : decodeDigits (digitChars n) = n := by
  induction n using Nat.strong_induction_on with
  | _ n ih =>
    by_cases h : n < 10
    · rw [digitChars, dif_pos h]
      have hv := digitChar_decode n h
      simp [decodeDigits, hv]
    · rw [digitChars, dif_neg h]
      rw [decode_append, ih (n / 10) (Nat.div_lt_self (by omega) (by omega))]
      rw [digitChar_decode (n % 10) (Nat.mod_lt n (by omega))]
      omega

theorem natRepr_eq_digitChars (n : Nat) : Nat.repr n = (digitChars n).asString := by
  have h1 : n < 10 ^ (n + 1) :=
    lt_of_lt_of_le (Nat.lt_pow_self (by omega) n)
      (Nat.pow_le_pow_right (by omega) (by omega))
  show (Nat.toDigitsCore 10 (n + 1) n []).asString = _
  rw [toDigitsCore_eq (n + 1) n [] (by omega) h1, List.append_nil]

theorem natRepr_injective (m n : Nat) (h : Nat.repr m = Nat.repr n) : m = n := by
  rw [natRepr_eq_digitChars, natRepr_eq_digitChars] at h
  have h2 : digitChars m = digitChars n := congrArg String.data h
  calc m = decodeDigits (digitChars m) := (decode_digitChars m).symm
    _ = decodeDigits (digitChars n) := by rw [h2]
    _ = n := decode_digitChars n

/-- C7: the voice commands "programar publicación" and "schedule a post"
match the schedule intent, and submitting either prepends a new post with
the default title; "hola" does not match and leaves the list unchanged. -/
theorem voiceCommand_schedule_intent (now : Nat) (posts : List AppV1.ScheduledPost) :
    isScheduleIntent "programar publicación" = true
    ∧ isScheduleIntent "schedule a post" = true
    ∧ isScheduleIntent "hola" = false
    ∧ AppV1.onVoiceSubmit now "programar publicación" posts
        = ({ id := toString now, createdAt := now, title := defaultTitle } :: posts, true)
    ∧ AppV1.onVoiceSubmit now "schedule a post" posts
        = ({ id := toString now, createdAt := now, title := defaultTitle } :: posts, true)
    ∧ AppV1.onVoiceSubmit now "hola" posts = (posts, false) := by
  have h1 : isScheduleIntent "programar publicación" = true := by decide
  have h2 : isScheduleIntent "schedule a post" = true := by decide
  have h3 : isScheduleIntent "hola" = false := by decide
  refine ⟨h1, h2, h3, ?_, ?_, ?_⟩
  · simp [AppV1.onVoiceSubmit, h1]
  · simp [AppV1.onVoiceSubmit, h2]
  · simp [AppV1.onVoiceSubmit, h3]

/-- C6 counterexample: the description is stored trimmed, not verbatim.
Saving with empty title, description `" x "` and timestamp 2000 stores
description `"x"`, which differs from the given description. -/
theorem saveScheduledPost_trims_description :
    AppV2.saveScheduledPost 1000 "" " x " 2000 []
      = [{ id := "1000", createdAt := 1000, title := defaultTitle,
           description := "x", scheduledAt := 2000 }]
    ∧ ("x" : String) ≠ " x " := by
  constructor <;> decide

/-- C6 amended: saving with a title whose trimmed value is empty prepends a
post with the placeholder title, the trimmed description, and the chosen
timestamp; all previously saved posts follow unmodified. -/
theorem saveScheduledPost_empty_title (now : Nat) (manualTitle descr : String)
    (scheduledAtMs : Nat) (posts : List AppV2.ScheduledPost)
    (h : jsTrim manualTitle = "") :
    AppV2.saveScheduledPost now manualTitle descr scheduledAtMs posts
      = { id := toString now, createdAt := now, title := defaultTitle,
          description := jsTrim descr, scheduledAt := scheduledAtMs } :: posts := by
  simp [AppV2.saveScheduledPost, h]

/-- Witness for `saveScheduledPost_empty_title`: a blank title, description
`" x "` and timestamp 2000 on top of a one-post list. -/
theorem saveScheduledPost_empty_title_witness :
    jsTrim "   " = ""
    ∧ AppV2.saveScheduledPost 1000 "   " " x " 2000
        [{ id := "7", createdAt := 7, title := "t", description := "d",
           scheduledAt := 9 }]
      = [{ id := "1000", createdAt := 1000, title := defaultTitle,
           description := "x", scheduledAt := 2000 },
         { id := "7", createdAt := 7, title := "t", description := "d",
           scheduledAt := 9 }] := by
  refine ⟨by decide, ?_⟩
  rw [saveScheduledPost_empty_title 1000 "   " " x " 2000
        [{ id := "7", createdAt := 7, title := "t", description := "d",
           scheduledAt := 9 }] (by decide)]
  decide

/-- C9 counterexample: two distinct posts created in the same millisecond
(`Date.now() = 1000`) receive the same id `"1000"`. -/
theorem scheduledPost_id_collision :
    AppV2.saveScheduledPost 1000 "A" "d2" 5 (AppV2.saveScheduledPost 1000 "B" "d1" 5 [])
      = [{ id := "1000", createdAt := 1000, title := "A", description := "d2",
           scheduledAt := 5 },
         { id := "1000", createdAt := 1000, title := "B", description := "d1",
           scheduledAt := 5 }]
    ∧ ({ id := "1000", createdAt := 1000, title := "A", description := "d2",
         scheduledAt := 5 } : AppV2.ScheduledPost)
        ≠ { id := "1000", createdAt := 1000, title := "B", description := "d1",
            scheduledAt := 5 }
    ∧ ({ id := "1000", createdAt := 1000, title := "A", description := "d2",
         scheduledAt := 5 } : AppV2.ScheduledPost).id
        = ({ id := "1000", createdAt := 1000, title := "B", description := "d1",
             scheduledAt := 5 } : AppV2.ScheduledPost).id := by
  refine ⟨by decide, by decide, rfl⟩

/-- C9 amended: each post's id is the decimal string of its creation time
(`String(Date.now())`), for both the manual save and the voice path; hence
posts created at distinct millisecond timestamps have distinct ids (while
same-millisecond creations collide, as the counterexample shows). -/
theorem scheduledPost_ids_distinct_times (n1 n2 : Nat) (t1 d1 t2 d2 vt1 vt2 : String)
    (s1 s2 : Nat) (ps1 ps2 : List AppV2.ScheduledPost)
    (qs1 qs2 : List AppV1.ScheduledPost)
    (hne : n1 ≠ n2)
    (hv1 : isScheduleIntent vt1 = true) (hv2 : isScheduleIntent vt2 = true) :
    ((AppV2.saveScheduledPost n1 t1 d1 s1 ps1).head?.map AppV2.ScheduledPost.id
      = some (toString n1))
    ∧ ((AppV1.onVoiceSubmit n1 vt1 qs1).1.head?.map AppV1.ScheduledPost.id
      = some (toString n1))
    ∧ ((AppV2.saveScheduledPost n2 t2 d2 s2 ps2).head?.map AppV2.ScheduledPost.id
      = some (toString n2))
    ∧ ((AppV1.onVoiceSubmit n2 vt2 qs2).1.head?.map AppV1.ScheduledPost.id
      = some (toString n2))
    ∧ toString n1 ≠ toString n2
    ∧ (AppV2.saveScheduledPost n1 t1 d1 s1 ps1).head?.map AppV2.ScheduledPost.id
        ≠ (AppV2.saveScheduledPost n2 t2 d2 s2 ps2).head?.map AppV2.ScheduledPost.id
    ∧ (AppV1.onVoiceSubmit n1 vt1 qs1).1.head?.map AppV1.ScheduledPost.id
        ≠ (AppV1.onVoiceSubmit n2 vt2 qs2).1.head?.map AppV1.ScheduledPost.id
    ∧ (AppV2.saveScheduledPost n1 t1 d1 s1 ps1).head?.map AppV2.ScheduledPost.id
        ≠ (AppV1.onVoiceSubmit n2 vt2 qs2).1.head?.map AppV1.ScheduledPost.id := by
  have hts : toString n1 ≠ toString n2 := fun hc => hne (natRepr_injective n1 n2 hc)
  have e1 : (AppV2.saveScheduledPost n1 t1 d1 s1 ps1).head?.map AppV2.ScheduledPost.id
      = some (toString n1) := by
    simp [AppV2.saveScheduledPost]
  have e2 : (AppV1.onVoiceSubmit n1 vt1 qs1).1.head?.map AppV1.ScheduledPost.id
      = some (toString n1) := by
    simp [AppV1.onVoiceSubmit, hv1]
  have e3 : (AppV2.saveScheduledPost n2 t2 d2 s2 ps2).head?.map AppV2.ScheduledPost.id
      = some (toString n2) := by
    simp [AppV2.saveScheduledPost]
  have e4 : (AppV1.onVoiceSubmit n2 vt2 qs2).1.head?.map AppV1.ScheduledPost.id
      = some (toString n2) := by
    simp [AppV1.onVoiceSubmit, hv2]
  refine ⟨e1, e2, e3, e4, hts, ?_, ?_, ?_⟩
  · rw [e1, e3]
    simpa using hts
  · rw [e2, e4]
    simpa using hts
  · rw [e1, e4]
    simpa using hts

/-- Witness for `scheduledPost_ids_distinct_times` at creation times 1000
and 1001 with the voice command "programar publicación". -/
theorem scheduledPost_ids_distinct_times_witness :
    ((AppV2.saveScheduledPost 1000 "a" "b" 1 []).head?.map AppV2.ScheduledPost.id
      = some (toString 1000))
    ∧ ((AppV1.onVoiceSubmit 1000 "programar publicación" []).1.head?.map
        AppV1.ScheduledPost.id = some (toString 1000))
    ∧ ((AppV2.saveScheduledPost 1001 "c" "d" 2 []).head?.map AppV2.ScheduledPost.id
      = some (toString 1001))
    ∧ ((AppV1.onVoiceSubmit 1001 "programar publicación" []).1.head?.map
        AppV1.ScheduledPost.id = some (toString 1001))
    ∧ toString 1000 ≠ toString 1001
    ∧ (AppV2.saveScheduledPost 1000 "a" "b" 1 []).head?.map AppV2.ScheduledPost.id
        ≠ (AppV2.saveScheduledPost 1001 "c" "d" 2 []).head?.map AppV2.ScheduledPost.id
    ∧ (AppV1.onVoiceSubmit 1000 "programar publicación" []).1.head?.map
        AppV1.ScheduledPost.id
        ≠ (AppV1.onVoiceSubmit 1001 "programar publicación" []).1.head?.map
          AppV1.ScheduledPost.id
    ∧ (AppV2.saveScheduledPost 1000 "a" "b" 1 []).head?.map AppV2.ScheduledPost.id
        ≠ (AppV1.onVoiceSubmit 1001 "programar publicación" []).1.head?.map
          AppV1.ScheduledPost.id :=
  scheduledPost_ids_distinct_times 1000 1001 "a" "b" "c" "d"
    "programar publicación" "programar publicación" 1 2 [] [] [] []
    (by decide) (by decide) (by decide)

end MediaPlay

namespace MediaPlay

/-- C1: for every source image, committed crop rectangle of positive width and
height, rotation angle, and filter key from the fixed `FILTERS` set, the
rasterization pipeline succeeds (given a 2D context) and produces an output
canvas of exactly the crop rectangle's width and height; the dimensions do not
depend on the rotation or the filter. -/
theorem getCroppedImg_output_size (image : SourceImage) (c : CropArea)
    (rot : ℚ) (fkey : String) (_hW : 0 < c.width) (_hH : 0 < c.height)
    (_hf : fkey ∈ FILTERS.map FilterDef.key) :
    ∃ b : Blob, getCroppedImg true image c rot (filterCss fkey) = Except.ok b
      ∧ b.content.width = c.width ∧ b.content.height = c.height := by
  exact ⟨_, rfl, rfl, rfl⟩

/-- Witness for `getCroppedImg_output_size` at a concrete image, crop
rectangle, rotation and filter. -/
theorem getCroppedImg_output_size_witness :
    (0 : Int) < 300 ∧ (0 : Int) < 200
    ∧ "sepia" ∈ FILTERS.map FilterDef.key
    ∧ ∃ b : Blob,
        getCroppedImg true ⟨800, 600, "data:image/png;base64,AAAA"⟩
          ⟨10, 20, 300, 200⟩ 45 (filterCss "sepia") = Except.ok b
        ∧ b.content.width = (⟨10, 20, 300, 200⟩ : CropArea).width
        ∧ b.content.height = (⟨10, 20, 300, 200⟩ : CropArea).height :=
  ⟨by decide, by decide, by decide,
    getCroppedImg_output_size ⟨800, 600, "data:image/png;base64,AAAA"⟩
      ⟨10, 20, 300, 200⟩ 45 "sepia" (by decide) (by decide) (by decide)⟩

/-- C4: rasterization is a deterministic function of the source image, crop
rectangle, rotation and filter: two invocations with equal inputs produce
equal output blobs. -/
theorem getCroppedImg_deterministic (a : Bool) (i i' : SourceImage)
    (c c' : CropArea) (r r' : ℚ) (f f' : String)
    (hi : i = i') (hc : c = c') (hr : r = r') (hf : f = f') :
    getCroppedImg a i c r f = getCroppedImg a i' c' r' f' := by
  subst hi; subst hc; subst hr; subst hf; rfl

/-- Witness for `getCroppedImg_deterministic` at a concrete input. -/
theorem getCroppedImg_deterministic_witness :
    getCroppedImg true ⟨640, 480, "data:image/png;base64,BBBB"⟩
      ⟨0, 0, 100, 50⟩ 30 "sepia(0.8)"
    = getCroppedImg true ⟨640, 480, "data:image/png;base64,BBBB"⟩
      ⟨0, 0, 100, 50⟩ 30 "sepia(0.8)" :=
  getCroppedImg_deterministic true _ _ _ _ _ _ _ _ rfl rfl rfl rfl

/-- C5 counterexample: uploading a new image does not reset the whole editor
state; the committed crop rectangle and the rendered preview URL keep their
previous values instead of returning to their initial (`none`) values. -/
theorem onSelectFileLoaded_not_full_reset :
    (onSelectFileLoaded
        { imageSrc := some "data:old", crop := (5, 6), zoom := 2,
          rotation := 90, croppedAreaPixels := some ⟨1, 2, 3, 4⟩,
          filter := "sepia", previewUrl := some "blob:preview-1" }
        "data:new").croppedAreaPixels ≠ initialEditorState.croppedAreaPixels
    ∧ (onSelectFileLoaded
        { imageSrc := some "data:old", crop := (5, 6), zoom := 2,
          rotation := 90, croppedAreaPixels := some ⟨1, 2, 3, 4⟩,
          filter := "sepia", previewUrl := some "blob:preview-1" }
        "data:new").previewUrl ≠ initialEditorState.previewUrl := by
  constructor <;> decide

/-- C5 amended: when a new image upload completes, the editor stores the new
data URL and resets crop offset, zoom, rotation and filter to their initial
values, but leaves the last committed `CropArea` and the preview URL
unchanged. -/
theorem onSelectFileLoaded_spec (st : EditorState) (dataUrl : String) :
    (onSelectFileLoaded st dataUrl).imageSrc = some dataUrl
    ∧ (onSelectFileLoaded st dataUrl).crop = (0, 0)
    ∧ (onSelectFileLoaded st dataUrl).zoom = 1
    ∧ (onSelectFileLoaded st dataUrl).rotation = 0
    ∧ (onSelectFileLoaded st dataUrl).filter = "none"
    ∧ (onSelectFileLoaded st dataUrl).croppedAreaPixels = st.croppedAreaPixels
    ∧ (onSelectFileLoaded st dataUrl).previewUrl = st.previewUrl :=
  ⟨rfl, rfl, rfl, rfl, rfl, rfl, rfl⟩

end MediaPlay
